import Mathlib

/-!
Verification of the dm-verity device controller (`src/dm.c` of rauc):
a shallow embedding of `setup_dm_verity` and `remove_dm_verity`.

The two C functions are sequences of host calls (`open` of the
device-mapper control node, a chain of `ioctl`s, a probe `open`/`read`)
with goto-based cleanup.  We embed them as pure functions over the
device record plus a `Host` oracle fixing the outcome of each host call;
each function returns its boolean result, the device state afterwards,
the error (if any) attached to the `GError` out-parameter, and the
ordered trace of host requests it issued.
-/

namespace DmVerity

/-- The `RaucDMVerity` struct from `dm.h`/`dm.c`.  Pointer fields become
`Option String` (`none` is `NULL`); `data_size` is the C `guint64`,
modelled as `Nat` (the operations below only divide it, so no wrap-around
arises). -/
structure RaucDMVerity where
  uuid : Option String
  lower_dev : Option String
  upper_dev : Option String
  data_size : Nat
  root_digest : Option String
  salt : Option String
deriving DecidableEq

/-- Outcome oracle for the host calls made by `setup_dm_verity` and
`remove_dm_verity`: whether each `open`/`ioctl`/`read` succeeds, the
minor number of `header.dev` reported back by the activation ioctl, the
status string the kernel writes into `params` on `DM_TABLE_STATUS`, and
the `g_strerror` text for a failing `DM_DEV_REMOVE`. -/
structure Host where
  controlOpenOk : Bool
  createOk : Bool
  tableLoadOk : Bool
  activateOk : Bool
  devMinor : Nat
  probeOpenOk : Bool
  probeReadOk : Bool
  statusQueryOk : Bool
  statusString : String
  removeOk : Bool
  removeErrText : String
deriving DecidableEq

/-- Error kinds attached to the `GError` out-parameter, one per
`g_set_error` site in `dm.c`. -/
inductive SetupError where
  | controlOpenFailed
  | createFailed
  | paramFormatFailed
  | tableLoadFailed
  | activateFailed
  | probeOpenFailed
  | probeReadFailed
  | statusQueryFailed
  | unexpectedStatus (s : String)
  | removeFailed (kernelText : String)
deriving DecidableEq

/-- A request issued to the host, with the fields the claims are about.
`closeControl` records `g_close(dmfd, NULL)` on the control handle. -/
inductive HostReq where
  | openControl
  | create (uuid name : String) (readonly : Bool)
  | tableLoad (uuid : String) (targetCount : Nat) (targetType : String)
      (sectorStart sectorLen : Nat) (params : String)
  | activate (uuid : String)
  | probeOpen (path : String)
  | probeRead
  | statusQuery (uuid : String)
  | remove (uuid : String) (deferred : Bool)
  | closeControl
deriving DecidableEq

structure SetupResult where
  res : Bool
  dev : RaucDMVerity
  err : Option SetupError
  trace : List HostReq
deriving DecidableEq

/-- The `g_return_val_if_fail` preconditions of `setup_dm_verity`
(dm.c:60-66); on violation the C function returns FALSE at once. -/
def setupPrecondOk (d : RaucDMVerity) : Bool :=
  d.uuid.isSome && d.lower_dev.isSome && d.upper_dev.isNone &&
    (decide (0 < d.data_size) && (d.data_size % 4096 == 0)) &&
    d.root_digest.isSome && d.salt.isSome

/-- The dm-verity target parameter string formatted at dm.c:104-110:
`"1 <lower> <lower> 4096 4096 <blocks> <blocks> sha256 <digest> <salt>"`
with `blocks = data_size / 4096` (the hash-area offset equals the data
block count).  String length stands for the byte count `g_snprintf`
reports (the inputs are ASCII device paths and hex strings). -/
def paramString (lower digest salt : String) (dataSize : Nat) : String :=
  "1 " ++ lower ++ " " ++ lower ++ " 4096 4096 " ++
    toString (dataSize / 4096) ++ " " ++ toString (dataSize / 4096) ++
    " sha256 " ++ digest ++ " " ++ salt

/-- The parameter string `setup_dm_verity` formats for a given device. -/
def setupParams (d : RaucDMVerity) : String :=
  paramString (d.lower_dev.getD "") (d.root_digest.getD "") (d.salt.getD "")
    d.data_size

/-- Shallow embedding of `setup_dm_verity` (dm.c:46-212).  Each failing
step sets the corresponding error and, from the parameter-formatting
step onward, jumps to `out_remove_dm`, which issues one `DM_DEV_REMOVE`
keyed by the uuid (its own failure is only logged, so `Host.removeOk`
does not affect the outcome) before closing the control handle.  Note
that `upper_dev` is assigned right after activation succeeds and is not
cleared on the rollback path. -/
def setup_dm_verity (h : Host) (d : RaucDMVerity) : SetupResult :=
  if setupPrecondOk d then
    let uuid := d.uuid.getD ""
    if h.controlOpenOk then
      let t1 : List HostReq :=
        [.openControl, .create uuid "rauc-verity-bundle" true]
      if h.createOk then
        let ps := setupParams d
        if 1024 ≤ ps.length then
          ⟨false, d, some .paramFormatFailed,
            t1 ++ [.remove uuid false, .closeControl]⟩
        else
          let t2 := t1 ++ [.tableLoad uuid 1 "verity" 0 (d.data_size / 512) ps]
          if h.tableLoadOk then
            let t3 := t2 ++ [.activate uuid]
            if h.activateOk then
              let upper := "/dev/dm-" ++ toString h.devMinor
              let d' := { d with upper_dev := some upper }
              let t4 := t3 ++ [.probeOpen upper]
              if h.probeOpenOk then
                let t5 := t4 ++ [.probeRead]
                if h.probeReadOk then
                  let t6 := t5 ++ [.statusQuery uuid]
                  if h.statusQueryOk then
                    if h.statusString = "V" then
                      ⟨true, d', none, t6 ++ [.closeControl]⟩
                    else
                      ⟨false, d', some (.unexpectedStatus h.statusString),
                        t6 ++ [.remove uuid false, .closeControl]⟩
                  else
                    ⟨false, d', some .statusQueryFailed,
                      t6 ++ [.remove uuid false, .closeControl]⟩
                else
                  ⟨false, d', some .probeReadFailed,
                    t5 ++ [.remove uuid false, .closeControl]⟩
              else
                ⟨false, d', some .probeOpenFailed,
                  t4 ++ [.remove uuid false, .closeControl]⟩
            else
              ⟨false, d, some .activateFailed,
                t3 ++ [.remove uuid false, .closeControl]⟩
          else
            ⟨false, d, some .tableLoadFailed,
              t2 ++ [.remove uuid false, .closeControl]⟩
      else
        ⟨false, d, some .createFailed, t1 ++ [.closeControl]⟩
    else
      ⟨false, d, some .controlOpenFailed, [.openControl]⟩
  else
    ⟨false, d, none, []⟩

/-- The `g_return_val_if_fail` preconditions of `remove_dm_verity`
(dm.c:222-228); identical to setup's except `upper_dev` must be set. -/
def removePrecondOk (d : RaucDMVerity) : Bool :=
  d.uuid.isSome && d.lower_dev.isSome && d.upper_dev.isSome &&
    (decide (0 < d.data_size) && (d.data_size % 4096 == 0)) &&
    d.root_digest.isSome && d.salt.isSome

/-- Shallow embedding of `remove_dm_verity` (dm.c:214-263): open the
control handle, issue one `DM_DEV_REMOVE` (deferred flag as requested);
on success clear `upper_dev`, on failure leave the device untouched and
report the kernel error text; close the control handle whenever it was
opened. -/
def remove_dm_verity (h : Host) (d : RaucDMVerity) (deferred : Bool) :
    SetupResult :=
  if removePrecondOk d then
    let uuid := d.uuid.getD ""
    if h.controlOpenOk then
      if h.removeOk then
        ⟨true, { d with upper_dev := none }, none,
          [.openControl, .remove uuid deferred, .closeControl]⟩
      else
        ⟨false, d, some (.removeFailed h.removeErrText),
          [.openControl, .remove uuid deferred, .closeControl]⟩
    else
      ⟨false, d, some .controlOpenFailed, [.openControl]⟩
  else
    ⟨false, d, none, []⟩

/-- Number of `DM_DEV_REMOVE` requests in a trace. -/
def removeCount : List HostReq → Nat
  | [] => 0
  | .openControl :: tl => removeCount tl
  | .create _ _ _ :: tl => removeCount tl
  | .tableLoad _ _ _ _ _ _ :: tl => removeCount tl
  | .activate _ :: tl => removeCount tl
  | .probeOpen _ :: tl => removeCount tl
  | .probeRead :: tl => removeCount tl
  | .statusQuery _ :: tl => removeCount tl
  | .remove _ _ :: tl => removeCount tl + 1
  | .closeControl :: tl => removeCount tl

/-- Whether a trace contains a `DM_TABLE_LOAD` request. -/
def hasTableLoad : List HostReq → Bool
  | [] => false
  | .openControl :: tl => hasTableLoad tl
  | .create _ _ _ :: tl => hasTableLoad tl
  | .tableLoad _ _ _ _ _ _ :: _ => true
  | .activate _ :: tl => hasTableLoad tl
  | .probeOpen _ :: tl => hasTableLoad tl
  | .probeRead :: tl => hasTableLoad tl
  | .statusQuery _ :: tl => hasTableLoad tl
  | .remove _ _ :: tl => hasTableLoad tl
  | .closeControl :: tl => hasTableLoad tl

/-- A host on which every call succeeds and the status query reports
`"V"`. -/
def allOkHost : Host :=
  { controlOpenOk := true, createOk := true, tableLoadOk := true,
    activateOk := true, devMinor := 0, probeOpenOk := true,
    probeReadOk := true, statusQueryOk := true, statusString := "V",
    removeOk := true, removeErrText := "" }

/-- A concrete valid device for witnesses. -/
def exampleDev : RaucDMVerity :=
  { uuid := some "8400a3f1-5d38-4e70-b489-a0a357bb7b21",
    lower_dev := some "/dev/loop0", upper_dev := none,
    data_size := 4096,
    root_digest := some "ab12cd34", salt := some "ef56" }

/-- `exampleDev` after a successful activation: `upper_dev` is set, so it
violates setup's precondition and satisfies remove's. -/
def exampleDevActive : RaucDMVerity :=
  { exampleDev with upper_dev := some "/dev/dm-0" }

/-- A device whose salt is long enough that the formatted parameter
string cannot fit the 1024-byte buffer. -/
def overflowDev : RaucDMVerity :=
  { exampleDev with salt := some (String.mk (List.replicate 1100 'x')) }

/-- The setup steps from table load onward at which a failure can be
injected (a failing host call, or a status response other than `"V"`). -/
inductive FailStep where
  | tableLoad
  | activate
  | probeOpen
  | probeRead
  | statusQuery
  | statusMismatch
deriving DecidableEq

/-- The all-succeeding host with exactly the given step failing
(for `statusMismatch`, the status query succeeds but reports `"C"`). -/
def injectFailure : FailStep → Host
  | .tableLoad => { allOkHost with tableLoadOk := false }
  | .activate => { allOkHost with activateOk := false }
  | .probeOpen => { allOkHost with probeOpenOk := false }
  | .probeRead => { allOkHost with probeReadOk := false }
  | .statusQuery => { allOkHost with statusQueryOk := false }
  | .statusMismatch => { allOkHost with statusString := "C" }

/-- The error kind `setup_dm_verity` attaches when the given step fails. -/
def errorOfStep : FailStep → SetupError
  | .tableLoad => .tableLoadFailed
  | .activate => .activateFailed
  | .probeOpen => .probeOpenFailed
  | .probeRead => .probeReadFailed
  | .statusQuery => .statusQueryFailed
  | .statusMismatch => .unexpectedStatus "C"

/-- C1: the claim says a failed setup always leaves `upper_device` null,
but when the probe-open step fails after activation, `setup_dm_verity`
returns failure while `upper_dev` is still set to the derived device
path: `out_remove_dm` removes the kernel device but never clears the
field assigned at dm.c:143. -/
theorem C1_failed_setup_leaves_upper_dev_set :
    (setup_dm_verity { allOkHost with probeOpenOk := false } exampleDev).res
      = false ∧
    (setup_dm_verity { allOkHost with probeOpenOk := false }
        exampleDev).err = some SetupError.probeOpenFailed ∧
    (setup_dm_verity { allOkHost with probeOpenOk := false }
        exampleDev).dev.upper_dev = some "/dev/dm-0" := by
  decide

/-- C3: if the device-create ioctl fails, `setup_dm_verity` attaches the
create error, returns failure, and issues no `DM_DEV_REMOVE` (dm.c:84-92
jumps to `out`, not `out_remove_dm`). -/
theorem C3_create_failure_reports_and_stops (h : Host) (d : RaucDMVerity)
    (hpre : setupPrecondOk d = true) (hopen : h.controlOpenOk = true)
    (hcreate : h.createOk = false) :
    (setup_dm_verity h d).res = false ∧
    (setup_dm_verity h d).err = some SetupError.createFailed ∧
    removeCount (setup_dm_verity h d).trace = 0 := by
  simp [setup_dm_verity, hpre, hopen, hcreate, removeCount]

/-- Witness for C3 at a concrete host and device. -/
theorem C3_create_failure_reports_and_stops_witness :
    (setup_dm_verity { allOkHost with createOk := false } exampleDev).res
      = false ∧
    (setup_dm_verity { allOkHost with createOk := false } exampleDev).err
      = some SetupError.createFailed ∧
    removeCount (setup_dm_verity { allOkHost with createOk := false }
      exampleDev).trace = 0 :=
  C3_create_failure_reports_and_stops _ exampleDev (by decide) (by decide)
    (by decide)

/-- C2, counterexample: the claim includes the create step, but an
injected create failure triggers no `DM_DEV_REMOVE` rollback at all
(count 0, not 1), even though the create error kind is reported. -/
theorem C2_counterexample_create_rollback :
    (setup_dm_verity { allOkHost with createOk := false } exampleDev).err
      = some SetupError.createFailed ∧
    ¬ removeCount (setup_dm_verity { allOkHost with createOk := false }
      exampleDev).trace = 1 := by
  decide

/-- C2, amended: for a failure injected at table load, activation,
probe-open, probe-read, or the status check (query failure or a status
other than `"V"`), `setup_dm_verity` returns failure with the error kind
of the failed step and issues exactly one `DM_DEV_REMOVE` rollback
request keyed by the device's uuid; an injected create failure instead
returns without any rollback (see the C3 theorem). -/
theorem C2_rollback_per_step (step : FailStep) (d : RaucDMVerity)
    (hpre : setupPrecondOk d = true)
    (hfit : (setupParams d).length < 1024) :
    (setup_dm_verity (injectFailure step) d).res = false ∧
    (setup_dm_verity (injectFailure step) d).err
      = some (errorOfStep step) ∧
    removeCount (setup_dm_verity (injectFailure step) d).trace = 1 ∧
    HostReq.remove (d.uuid.getD "") false
      ∈ (setup_dm_verity (injectFailure step) d).trace := by
  have hfit' : ¬ 1024 ≤ (setupParams d).length := Nat.not_le.mpr hfit
  cases step <;>
    simp [setup_dm_verity, injectFailure, errorOfStep, allOkHost, hpre,
      hfit', removeCount, List.mem_append]

/-- Witness for the amended C2 at the table-load step on a concrete
device. -/
theorem C2_rollback_per_step_witness :
    (setup_dm_verity (injectFailure FailStep.tableLoad) exampleDev).res
      = false ∧
    (setup_dm_verity (injectFailure FailStep.tableLoad) exampleDev).err
      = some (errorOfStep FailStep.tableLoad) ∧
    removeCount (setup_dm_verity (injectFailure FailStep.tableLoad)
      exampleDev).trace = 1 ∧
    HostReq.remove (exampleDev.uuid.getD "") false
      ∈ (setup_dm_verity (injectFailure FailStep.tableLoad)
          exampleDev).trace :=
  C2_rollback_per_step FailStep.tableLoad exampleDev (by decide) (by decide)

/-- C4: for `data_size = 4096 * N` with `N > 0` and parameters that fit
the buffer, the formatted table-load parameter string is exactly
`"1 <lower> <lower> 4096 4096 N N sha256 <digest> <salt>"` — the lower
device appears twice (data and hash device) and `N` appears twice (data
block count and hash start offset) — and the table-load request issued
by setup carries exactly that string. -/
theorem C4_param_string_format (d : RaucDMVerity)
    (uuid lower digest salt : String) (N : Nat)
    (hu : d.uuid = some uuid) (hl : d.lower_dev = some lower)
    (hup : d.upper_dev = none) (hsz : d.data_size = 4096 * N)
    (hN : 0 < N) (hdg : d.root_digest = some digest)
    (hs : d.salt = some salt)
    (hfit : (setupParams d).length < 1024) :
    setupParams d =
      "1 " ++ lower ++ " " ++ lower ++ " 4096 4096 " ++ toString N ++
        " " ++ toString N ++ " sha256 " ++ digest ++ " " ++ salt ∧
    HostReq.tableLoad uuid 1 "verity" 0 (d.data_size / 512)
        (setupParams d) ∈ (setup_dm_verity allOkHost d).trace := by
  have hdiv : 4096 * N / 4096 = N := Nat.mul_div_cancel_left N (by norm_num)
  have hpre : setupPrecondOk d = true := by
    simp [setupPrecondOk, hu, hl, hup, hdg, hs, hsz]
    omega
  have hfit' : ¬ 1024 ≤ (setupParams d).length := Nat.not_le.mpr hfit
  constructor
  · simp [setupParams, paramString, hl, hdg, hs, hsz, hdiv]
  · simp [setup_dm_verity, hpre, hfit', allOkHost, hu, List.mem_append]

/-- Witness for C4 at a concrete device with `N = 1`. -/
theorem C4_param_string_format_witness :
    setupParams exampleDev =
      "1 " ++ "/dev/loop0" ++ " " ++ "/dev/loop0" ++ " 4096 4096 " ++
        toString 1 ++ " " ++ toString 1 ++ " sha256 " ++ "ab12cd34" ++
        " " ++ "ef56" ∧
    HostReq.tableLoad "8400a3f1-5d38-4e70-b489-a0a357bb7b21" 1 "verity" 0
        (exampleDev.data_size / 512) (setupParams exampleDev)
      ∈ (setup_dm_verity allOkHost exampleDev).trace :=
  C4_param_string_format exampleDev _ "/dev/loop0" "ab12cd34" "ef56" 1
    (by decide) (by decide) (by decide) (by decide) (by decide) (by decide)
    (by decide) (by decide)

/-- C5: when every host call up to and including the status query
succeeds, setup succeeds exactly when the returned status string equals
`"V"`; any other status (such as `"C"`, `""`, or `"V "`) yields the
unexpected-status error carrying that string and one rollback Remove. -/
theorem C5_status_check_exact_V (h : Host) (d : RaucDMVerity)
    (hpre : setupPrecondOk d = true)
    (hfit : (setupParams d).length < 1024)
    (hopen : h.controlOpenOk = true) (hcreate : h.createOk = true)
    (hload : h.tableLoadOk = true) (hact : h.activateOk = true)
    (hpo : h.probeOpenOk = true) (hpr : h.probeReadOk = true)
    (hsq : h.statusQueryOk = true) :
    ((setup_dm_verity h d).res = true ↔ h.statusString = "V") ∧
    (h.statusString ≠ "V" →
      (setup_dm_verity h d).err
        = some (SetupError.unexpectedStatus h.statusString) ∧
      removeCount (setup_dm_verity h d).trace = 1) := by
  have hfit' : ¬ 1024 ≤ (setupParams d).length := Nat.not_le.mpr hfit
  by_cases hv : h.statusString = "V" <;>
    simp [setup_dm_verity, hpre, hfit', hopen, hcreate, hload, hact, hpo,
      hpr, hsq, hv, removeCount]

/-- Witness for C5 at a host whose status query reports `"C"`. -/
theorem C5_status_check_exact_V_witness :
    ((setup_dm_verity { allOkHost with statusString := "C" }
        exampleDev).res = true ↔
      ({ allOkHost with statusString := "C" } : Host).statusString = "V") ∧
    (({ allOkHost with statusString := "C" } : Host).statusString ≠ "V" →
      (setup_dm_verity { allOkHost with statusString := "C" }
          exampleDev).err = some (SetupError.unexpectedStatus
            ({ allOkHost with statusString := "C" } : Host).statusString) ∧
      removeCount (setup_dm_verity { allOkHost with statusString := "C" }
        exampleDev).trace = 1) :=
  C5_status_check_exact_V { allOkHost with statusString := "C" }
    exampleDev (by decide) (by decide) (by decide) (by decide) (by decide)
    (by decide) (by decide) (by decide) (by decide)

/-- C6: once the formatting step is reached, a formatted parameter
string of 1024 bytes or more fails with the formatting error and no
table load is issued; a string strictly under 1024 bytes never produces
the formatting error, whatever the host does afterwards. -/
theorem C6_param_buffer_bound (h : Host) (d : RaucDMVerity)
    (hpre : setupPrecondOk d = true) :
    (h.controlOpenOk = true → h.createOk = true →
      1024 ≤ (setupParams d).length →
      (setup_dm_verity h d).res = false ∧
      (setup_dm_verity h d).err = some SetupError.paramFormatFailed ∧
      hasTableLoad (setup_dm_verity h d).trace = false) ∧
    ((setupParams d).length < 1024 →
      (setup_dm_verity h d).err ≠ some SetupError.paramFormatFailed) := by
  constructor
  · intro hopen hcreate hlen
    simp [setup_dm_verity, hpre, hopen, hcreate, hlen, hasTableLoad]
  · intro hfit
    have hfit' : ¬ 1024 ≤ (setupParams d).length := Nat.not_le.mpr hfit
    simp only [setup_dm_verity, hpre, if_true]
    split_ifs <;> simp_all

set_option maxRecDepth 20000 in
/-- Witness for C6 on a device whose salt overflows the buffer. -/
theorem C6_param_buffer_bound_witness :
    (setup_dm_verity allOkHost overflowDev).res = false ∧
    (setup_dm_verity allOkHost overflowDev).err
      = some SetupError.paramFormatFailed ∧
    hasTableLoad (setup_dm_verity allOkHost overflowDev).trace = false :=
  (C6_param_buffer_bound allOkHost overflowDev (by decide)).1 (by decide)
    (by decide) (by decide)

/-- C7: `remove_dm_verity` succeeds exactly when the control handle
opens and the remove ioctl succeeds, in which case it clears
`upper_dev` and touches nothing else; on a remove-ioctl failure it
leaves the device unchanged and reports the kernel error text; on an
open failure it leaves the device unchanged; it closes the control
handle whenever it was opened. -/
theorem C7_remove_contract (h : Host) (d : RaucDMVerity) (deferred : Bool)
    (hpre : removePrecondOk d = true) :
    ((remove_dm_verity h d deferred).res = true ↔
      (h.controlOpenOk = true ∧ h.removeOk = true)) ∧
    (h.controlOpenOk = true → h.removeOk = true →
      (remove_dm_verity h d deferred).dev = { d with upper_dev := none } ∧
      (remove_dm_verity h d deferred).err = none) ∧
    (h.controlOpenOk = true → h.removeOk = false →
      (remove_dm_verity h d deferred).dev = d ∧
      (remove_dm_verity h d deferred).err
        = some (SetupError.removeFailed h.removeErrText)) ∧
    (h.controlOpenOk = false →
      (remove_dm_verity h d deferred).dev = d ∧
      (remove_dm_verity h d deferred).err
        = some SetupError.controlOpenFailed) ∧
    (h.controlOpenOk = true →
      HostReq.closeControl ∈ (remove_dm_verity h d deferred).trace) := by
  by_cases hopen : h.controlOpenOk = true
  · by_cases hrem : h.removeOk = true
    · simp [remove_dm_verity, hpre, hopen, hrem]
    · simp [remove_dm_verity, hpre, hopen, hrem]
  · simp [remove_dm_verity, hpre, hopen]

/-- Witness for C7: a successful removal on a concrete active device. -/
theorem C7_remove_contract_witness :
    (remove_dm_verity allOkHost exampleDevActive false).dev
      = { exampleDevActive with upper_dev := none } ∧
    (remove_dm_verity allOkHost exampleDevActive false).err = none :=
  (C7_remove_contract allOkHost exampleDevActive false (by decide)).2.1
    (by decide) (by decide)

/-- `setup_dm_verity` succeeds exactly when the preconditions hold, the
parameters fit, every host call succeeds, and the status is `"V"`. -/
theorem setup_res_true_iff (h : Host) (d : RaucDMVerity) :
    (setup_dm_verity h d).res = true ↔
      (setupPrecondOk d = true ∧ h.controlOpenOk = true ∧
        h.createOk = true ∧ (setupParams d).length < 1024 ∧
        h.tableLoadOk = true ∧ h.activateOk = true ∧
        h.probeOpenOk = true ∧ h.probeReadOk = true ∧
        h.statusQueryOk = true ∧ h.statusString = "V") := by
  by_cases h1 : setupPrecondOk d = true
  · by_cases h2 : h.controlOpenOk = true
    · by_cases h3 : h.createOk = true
      · by_cases h4 : (setupParams d).length < 1024
        · have h4' : ¬ 1024 ≤ (setupParams d).length := Nat.not_le.mpr h4
          by_cases h5 : h.tableLoadOk = true
          · by_cases h6 : h.activateOk = true
            · by_cases h7 : h.probeOpenOk = true
              · by_cases h8 : h.probeReadOk = true
                · by_cases h9 : h.statusQueryOk = true
                  · by_cases h10 : h.statusString = "V"
                    · simp [setup_dm_verity, h1, h2, h3, h4, h4', h5, h6,
                        h7, h8, h9, h10]
                    · simp [setup_dm_verity, h1, h2, h3, h4, h4', h5, h6,
                        h7, h8, h9, h10]
                  · simp [setup_dm_verity, h1, h2, h3, h4, h4', h5, h6,
                      h7, h8, h9]
                · simp [setup_dm_verity, h1, h2, h3, h4, h4', h5, h6, h7,
                    h8]
              · simp [setup_dm_verity, h1, h2, h3, h4, h4', h5, h6, h7]
            · simp [setup_dm_verity, h1, h2, h3, h4, h4', h5, h6]
          · simp [setup_dm_verity, h1, h2, h3, h4, h4', h5]
        · have h4' : 1024 ≤ (setupParams d).length := Nat.not_lt.mp h4
          simp [setup_dm_verity, h1, h2, h3, h4, h4']
      · simp [setup_dm_verity, h1, h2, h3]
    · simp [setup_dm_verity, h1, h2]
  · simp [setup_dm_verity, h1]

/-- C8: whenever setup returns success, `upper_dev` is exactly
`"/dev/dm-<minor>"` for the minor number reported by the activation
response. -/
theorem C8_upper_dev_from_minor (h : Host) (d : RaucDMVerity)
    (hres : (setup_dm_verity h d).res = true) :
    (setup_dm_verity h d).dev.upper_dev
      = some ("/dev/dm-" ++ toString h.devMinor) := by
  rw [setup_res_true_iff] at hres
  obtain ⟨h1, h2, h3, h4, h5, h6, h7, h8, h9, h10⟩ := hres
  have h4' : ¬ 1024 ≤ (setupParams d).length := Nat.not_le.mpr h4
  simp [setup_dm_verity, h1, h2, h3, h4', h5, h6, h7, h8, h9, h10]

/-- Witness for C8 on the all-succeeding host. -/
theorem C8_upper_dev_from_minor_witness :
    (setup_dm_verity allOkHost exampleDev).res = true ∧
    (setup_dm_verity allOkHost exampleDev).dev.upper_dev
      = some ("/dev/dm-" ++ toString allOkHost.devMinor) :=
  ⟨by decide, C8_upper_dev_from_minor allOkHost exampleDev (by decide)⟩

/-- C9: any table-load request setup issues carries exactly one target,
of type `"verity"`, starting at sector 0 with its length expressed in
512-byte sectors as `data_size / 512`. -/
theorem C9_table_load_target (h : Host) (d : RaucDMVerity)
    (uuid targetType : String) (targetCount sectorStart sectorLen : Nat)
    (params : String)
    (hmem : HostReq.tableLoad uuid targetCount targetType sectorStart
      sectorLen params ∈ (setup_dm_verity h d).trace) :
    targetCount = 1 ∧ targetType = "verity" ∧ sectorStart = 0 ∧
      sectorLen = d.data_size / 512 := by
  by_cases h1 : setupPrecondOk d = true
  · by_cases h2 : h.controlOpenOk = true
    · by_cases h3 : h.createOk = true
      · by_cases h4 : 1024 ≤ (setupParams d).length
        · simp [setup_dm_verity, h1, h2, h3, h4] at hmem
        · by_cases h5 : h.tableLoadOk = true
          · by_cases h6 : h.activateOk = true
            · by_cases h7 : h.probeOpenOk = true
              · by_cases h8 : h.probeReadOk = true
                · by_cases h9 : h.statusQueryOk = true
                  · by_cases h10 : h.statusString = "V"
                    · simp [setup_dm_verity, h1, h2, h3, h4, h5, h6, h7,
                        h8, h9, h10] at hmem
                      simp_all
                    · simp [setup_dm_verity, h1, h2, h3, h4, h5, h6, h7,
                        h8, h9, h10] at hmem
                      simp_all
                  · simp [setup_dm_verity, h1, h2, h3, h4, h5, h6, h7,
                      h8, h9] at hmem
                    simp_all
                · simp [setup_dm_verity, h1, h2, h3, h4, h5, h6, h7,
                    h8] at hmem
                  simp_all
              · simp [setup_dm_verity, h1, h2, h3, h4, h5, h6, h7] at hmem
                simp_all
            · simp [setup_dm_verity, h1, h2, h3, h4, h5, h6] at hmem
              simp_all
          · simp [setup_dm_verity, h1, h2, h3, h4, h5] at hmem
            simp_all
      · simp [setup_dm_verity, h1, h2, h3] at hmem
    · simp [setup_dm_verity, h1, h2] at hmem
  · simp [setup_dm_verity, h1] at hmem

/-- Witness for C9 at the table-load request issued on the
all-succeeding host. -/
theorem C9_table_load_target_witness :
    (1 : Nat) = 1 ∧ "verity" = "verity" ∧ (0 : Nat) = 0 ∧
      (8 : Nat) = exampleDev.data_size / 512 :=
  C9_table_load_target allOkHost exampleDev
    "8400a3f1-5d38-4e70-b489-a0a357bb7b21" "verity" 1 0 8
    (setupParams exampleDev) (by decide)

/-- C10: a violated precondition (for setup: `upper_dev` already set,
`data_size` zero or unaligned, or a null field; for remove: `upper_dev`
null or the same conditions) makes the operation return failure at once
with no host request issued, the device untouched, and no error
attached; whereas when the preconditions hold, every failure carries an
error. -/
theorem C10_precondition_violations_silent (h : Host) (d : RaucDMVerity)
    (deferred : Bool) :
    (setupPrecondOk d = false →
      setup_dm_verity h d = ⟨false, d, none, []⟩) ∧
    (removePrecondOk d = false →
      remove_dm_verity h d deferred = ⟨false, d, none, []⟩) ∧
    (setupPrecondOk d = true → (setup_dm_verity h d).res = false →
      (setup_dm_verity h d).err.isSome = true) ∧
    (removePrecondOk d = true →
      (remove_dm_verity h d deferred).res = false →
      (remove_dm_verity h d deferred).err.isSome = true) := by
  refine ⟨fun hpre => ?_, fun hpre => ?_, fun hpre hres => ?_,
    fun hpre hres => ?_⟩
  · simp [setup_dm_verity, hpre]
  · simp [remove_dm_verity, hpre]
  · by_cases h2 : h.controlOpenOk = true
    · by_cases h3 : h.createOk = true
      · by_cases h4 : 1024 ≤ (setupParams d).length
        · simp [setup_dm_verity, hpre, h2, h3, h4]
        · by_cases h5 : h.tableLoadOk = true
          · by_cases h6 : h.activateOk = true
            · by_cases h7 : h.probeOpenOk = true
              · by_cases h8 : h.probeReadOk = true
                · by_cases h9 : h.statusQueryOk = true
                  · by_cases h10 : h.statusString = "V"
                    · simp [setup_dm_verity, hpre, h2, h3, h4, h5, h6,
                        h7, h8, h9, h10] at hres
                    · simp [setup_dm_verity, hpre, h2, h3, h4, h5, h6,
                        h7, h8, h9, h10]
                  · simp [setup_dm_verity, hpre, h2, h3, h4, h5, h6, h7,
                      h8, h9]
                · simp [setup_dm_verity, hpre, h2, h3, h4, h5, h6, h7,
                    h8]
              · simp [setup_dm_verity, hpre, h2, h3, h4, h5, h6, h7]
            · simp [setup_dm_verity, hpre, h2, h3, h4, h5, h6]
          · simp [setup_dm_verity, hpre, h2, h3, h4, h5]
      · simp [setup_dm_verity, hpre, h2, h3]
    · simp [setup_dm_verity, hpre, h2]
  · by_cases h2 : h.controlOpenOk = true
    · by_cases h3 : h.removeOk = true
      · simp [remove_dm_verity, hpre, h2, h3] at hres
      · simp [remove_dm_verity, hpre, h2, h3]
    · simp [remove_dm_verity, hpre, h2]

/-- Witness for C10: setup on a device whose `upper_dev` is already set
returns failure with no trace, no error, and no state change. -/
theorem C10_precondition_violations_silent_witness :
    setup_dm_verity allOkHost exampleDevActive
      = ⟨false, exampleDevActive, none, []⟩ :=
  (C10_precondition_violations_silent allOkHost exampleDevActive
    false).1 (by decide)

end DmVerity
